import Mathlib

/-!
Shallow embedding of `src/standard/buffer.rs` from the `ocl` crate:
the linear bound check `check_len`, the mapped-memory resource `MappedMem`
with its deferred-unmap policy, the buffer command builder `BufferCmd`
with its `enq` / `enq_map` dispatch, and `SubBuffer::new`.

External collaborators (the `core` runtime crate, `SpatialDims`) are not
under `src/`; where a claim depends on them they are modelled from the
spec, each such definition marked `Modelled from the spec:`.
-/

set_option autoImplicit false

namespace Ocl

/-- Handle for a `core::CommandQueue` (opaque to this module). -/
abbrev CommandQueue := Nat

/-- Handle for a `core::Mem` device memory object (opaque to this module). -/
abbrev MemCore := Nat

/-- A `core::Event` (opaque to this module). -/
abbrev EventCore := Nat

/-- A `core::EventList` (opaque to this module). -/
abbrev EventListCore := List Nat

/-- `core::MapFlags` bitmask. -/
abbrev MapFlags := Nat

/-- `MapFlags::empty()`. -/
def MapFlags.empty : MapFlags := 0

/-- `true` exactly on the `error` constructor of an `OclResult`. -/
def isErr {α : Type} : Except String α → Bool
  | Except.error _ => true
  | Except.ok _ => false

/-- Embeds `check_len` (buffer.rs lines 19-28): errors when the offset is out
of range or the data length exceeds the remaining buffer length. -/
def check_len (mem_len data_len offset : Nat) : Except String Unit :=
  if offset ≥ mem_len then
    Except.error "ocl::Buffer::enq(): Offset out of range."
  else if data_len > mem_len - offset then
    Except.error "ocl::Buffer::enq(): Data length exceeds buffer length."
  else
    Except.ok ()

/-- Modelled from the spec: the runtime-owned host-visible view produced by a
map command (`core::MappedMem`, not under `src/`); per the spec it carries the
view (pointer and length) and tracks whether it has been released. -/
structure MappedMemCore (T : Type) where
  ptr : Nat
  len : Nat
  is_unmapped : Bool
  deriving Repr, DecidableEq

/-- Modelled from the spec: `core::MappedMem::unmap_mem_object` submits the
unmap through the given queue, memory handle and events, and marks the view
released; device-side failures are outside the model (it succeeds). -/
def MappedMemCore.unmap_mem_object {T : Type} (core : MappedMemCore T)
    (queue : CommandQueue) (mem : MemCore) (ewait : Option EventListCore)
    (enew : Option EventCore) : Except String (MappedMemCore T) :=
  let _ := queue
  let _ := mem
  let _ := ewait
  let _ := enew
  Except.ok { core with is_unmapped := true }

/-- Embeds the `DelayedUnmap` enum (buffer.rs lines 32-40): what to do when a
`MappedMem` goes out of scope. -/
inductive DelayedUnmap where
  | some (queue : CommandQueue) (mem : MemCore) (ewait : Option EventListCore)
      (enew : Option EventCore)
  | none
  deriving Repr, DecidableEq

/-- Embeds the `MappedMem` struct (buffer.rs lines 49-52). -/
structure MappedMem (T : Type) where
  core : MappedMemCore T
  delayed_unmap : DelayedUnmap
  deriving Repr, DecidableEq

/-- Embeds `MappedMem::new` (buffer.rs lines 56-61). -/
def MappedMem.new {T : Type} (core : MappedMemCore T) : MappedMem T :=
  { core := core, delayed_unmap := DelayedUnmap.none }

/-- Embeds `MappedMem::unmap_later` (buffer.rs lines 69-79): installs the
deferred-unmap policy with the captured queue, handle and events. -/
def MappedMem.unmap_later {T : Type} (m : MappedMem T) (queue : CommandQueue)
    (mem : MemCore) (wait_list : Option EventListCore)
    (new_event : Option EventCore) : MappedMem T :=
  { m with delayed_unmap := DelayedUnmap.some queue mem wait_list new_event }

/-- The field update performed by `set_unmap_events` on each captured event
field: an argument that is present overwrites the captured value, an absent
one keeps it. -/
def mergeOpt {α : Type} (newVal old : Option α) : Option α :=
  match newVal with
  | Option.some v => Option.some v
  | Option.none => old

/-- Embeds `MappedMem::set_unmap_events` (buffer.rs lines 83-105). `Option.none`
models the panics: the assert that the view is not already unmapped, and the
`DelayedUnmap::None` branch. Passing `Option.none` for either argument keeps
the previously captured value. -/
def MappedMem.set_unmap_events {T : Type} (m : MappedMem T)
    (wait_list : Option EventListCore) (new_event : Option EventCore) :
    Option (MappedMem T) :=
  if m.core.is_unmapped then
    Option.none
  else
    match m.delayed_unmap with
    | DelayedUnmap.some queue mem ewait enew =>
        let ewait2 : Option EventListCore := mergeOpt wait_list ewait
        let enew2 : Option EventCore := mergeOpt new_event enew
        Option.some { m with delayed_unmap := DelayedUnmap.some queue mem ewait2 enew2 }
    | DelayedUnmap.none => Option.none

/-- Embeds `MappedMem::unmap` (buffer.rs lines 107-127): errors when the view
is already unmapped or no deferred-unmap policy has been installed; otherwise
dispatches with the captured parameters. Returns the updated state. -/
def MappedMem.unmap {T : Type} (m : MappedMem T) : Except String (MappedMem T) :=
  if m.core.is_unmapped then
    Except.error "ocl::MappedMem::unmap: This MappedMem is already unmapped."
  else
    match m.delayed_unmap with
    | DelayedUnmap.some queue mem ewait enew =>
        match m.core.unmap_mem_object queue mem ewait enew with
        | Except.ok core2 => Except.ok { m with core := core2 }
        | Except.error e => Except.error e
    | DelayedUnmap.none =>
        Except.error "ocl::MappedMem::set_unmap_events: Can only be called after unmap_later has already been called."

/-- Outcome of the `Drop` impl: whether an unmap command was submitted, and the
resulting state. -/
structure DropOutcome (T : Type) where
  submitted : Bool
  state : MappedMem T
  deriving Repr, DecidableEq

/-- Embeds `impl Drop for MappedMem` (buffer.rs lines 144-164): returns
immediately when already unmapped; submits the deferred unmap (unwrapping the
result, which would abort on failure) when a policy is installed; does nothing
in the `DelayedUnmap::None` case. -/
def MappedMem.drop {T : Type} (m : MappedMem T) : DropOutcome T :=
  if m.core.is_unmapped then
    { submitted := false, state := m }
  else
    match m.delayed_unmap with
    | DelayedUnmap.some queue mem ewait enew =>
        match m.core.unmap_mem_object queue mem ewait enew with
        | Except.ok core2 => { submitted := true, state := { m with core := core2 } }
        | Except.error _ => { submitted := true, state := m }
    | DelayedUnmap.none => { submitted := false, state := m }

/-- Two successive explicit `unmap` calls: an erroring call leaves the state
unchanged (the Rust method mutates nothing on its error paths), so the second
call then operates on the same state. -/
def MappedMem.unmapTwice {T : Type} (m : MappedMem T) : Except String (MappedMem T) :=
  match m.unmap with
  | Except.ok m2 => m2.unmap
  | Except.error _ => m.unmap

/-- Embeds the `BufferCmdKind` enum (buffer.rs lines 168-178). Rust slices are
modelled as lists; `[usize; 3]` as a triple. -/
inductive BufferCmdKind (T : Type) where
  | Unspecified
  | Read (data : List T)
  | Write (data : List T)
  | Map (flags : Option MapFlags) (len : Option Nat)
  | Copy (dst_buffer : MemCore) (dst_offset : Option Nat) (len : Option Nat)
  | Fill (pattern : T) (len : Option Nat)
  | CopyToImage (image : MemCore) (dst_origin : Nat × Nat × Nat)
      (region : Nat × Nat × Nat)
  | GLAcquire
  | GLRelease
  deriving Repr, DecidableEq

/-- Embeds `BufferCmdKind::is_unspec` (buffer.rs lines 181-187). -/
def BufferCmdKind.is_unspec {T : Type} : BufferCmdKind T → Bool
  | BufferCmdKind.Unspecified => true
  | _ => false

/-- `true` exactly on the `Map` variant. -/
def BufferCmdKind.isMap {T : Type} : BufferCmdKind T → Bool
  | BufferCmdKind.Map _ _ => true
  | _ => false

/-- Embeds the `BufferCmdDataShape` enum (buffer.rs lines 194-205). -/
inductive BufferCmdDataShape where
  | Lin (offset : Nat)
  | Rect (src_origin dst_origin region : Nat × Nat × Nat)
      (src_row_pitch src_slc_pitch dst_row_pitch dst_slc_pitch : Nat)
  deriving Repr, DecidableEq

/-- Embeds the `BufferCmd` struct (buffer.rs lines 230-240). -/
structure BufferCmd (T : Type) where
  queue : CommandQueue
  obj_core : MemCore
  block : Bool
  lock_block : Bool
  kind : BufferCmdKind T
  shape : BufferCmdDataShape
  ewait : Option EventListCore
  enew : Option EventCore
  mem_len : Nat
  deriving Repr, DecidableEq

/-- Embeds `BufferCmd::new` (buffer.rs lines 247-261). -/
def BufferCmd.new {T : Type} (queue : CommandQueue) (obj_core : MemCore)
    (mem_len : Nat) : BufferCmd T :=
  { queue := queue, obj_core := obj_core, block := true, lock_block := false,
    kind := BufferCmdKind.Unspecified, shape := BufferCmdDataShape.Lin 0,
    ewait := Option.none, enew := Option.none, mem_len := mem_len }

/-- Embeds `BufferCmd::block` (buffer.rs lines 278-285); `Option.none` models
the panic when unblocking is requested after a locked blocking read. -/
def BufferCmd.setBlock {T : Type} (c : BufferCmd T) (block : Bool) :
    Option (BufferCmd T) :=
  if !block && c.lock_block then
    Option.none
  else
    Option.some { c with block := block }

/-- Embeds `BufferCmd::offset` (buffer.rs lines 293-301); `Option.none` models
the panic when the shape was already set to rectangular. -/
def BufferCmd.offset {T : Type} (c : BufferCmd T) (offset : Nat) :
    Option (BufferCmd T) :=
  match c.shape with
  | BufferCmdDataShape.Rect _ _ _ _ _ _ _ => Option.none
  | BufferCmdDataShape.Lin _ =>
      Option.some { c with shape := BufferCmdDataShape.Lin offset }

/-- Embeds `BufferCmd::read` (buffer.rs lines 312-319); `Option.none` models
the panic of the operation-kind-already-set assert. -/
def BufferCmd.read {T : Type} (c : BufferCmd T) (dst_data : List T) :
    Option (BufferCmd T) :=
  if c.kind.is_unspec then
    Option.some { c with
      kind := BufferCmdKind.Read dst_data,
      block := true,
      lock_block := true }
  else
    Option.none

/-- Embeds `BufferCmd::read_async` (buffer.rs lines 337-342); `Option.none`
models the panic of the operation-kind-already-set assert. -/
def BufferCmd.read_async {T : Type} (c : BufferCmd T) (dst_data : List T) :
    Option (BufferCmd T) :=
  if c.kind.is_unspec then
    Option.some { c with kind := BufferCmdKind.Read dst_data }
  else
    Option.none

/-- Embeds `BufferCmd::write` (buffer.rs lines 350-355). -/
def BufferCmd.write {T : Type} (c : BufferCmd T) (src_data : List T) :
    Option (BufferCmd T) :=
  if c.kind.is_unspec then
    Option.some { c with kind := BufferCmdKind.Write src_data }
  else
    Option.none

/-- Embeds `BufferCmd::map` (buffer.rs lines 363-368). -/
def BufferCmd.map {T : Type} (c : BufferCmd T) (flags : Option MapFlags)
    (len : Option Nat) : Option (BufferCmd T) :=
  if c.kind.is_unspec then
    Option.some { c with kind := BufferCmdKind.Map flags len }
  else
    Option.none

/-- Embeds `BufferCmd::copy` (buffer.rs lines 383-395). -/
def BufferCmd.copy {T : Type} (c : BufferCmd T) (dst_buffer : MemCore)
    (dst_offset : Option Nat) (len : Option Nat) : Option (BufferCmd T) :=
  if c.kind.is_unspec then
    Option.some { c with kind := BufferCmdKind.Copy dst_buffer dst_offset len }
  else
    Option.none

/-- Embeds `BufferCmd::copy_to_image` (buffer.rs lines 406-413). -/
def BufferCmd.copy_to_image {T : Type} (c : BufferCmd T) (image : MemCore)
    (dst_origin : Nat × Nat × Nat) (region : Nat × Nat × Nat) :
    Option (BufferCmd T) :=
  if c.kind.is_unspec then
    Option.some { c with kind := BufferCmdKind.CopyToImage image dst_origin region }
  else
    Option.none

/-- Embeds `BufferCmd::gl_acquire` (buffer.rs lines 423-428). -/
def BufferCmd.gl_acquire {T : Type} (c : BufferCmd T) : Option (BufferCmd T) :=
  if c.kind.is_unspec then
    Option.some { c with kind := BufferCmdKind.GLAcquire }
  else
    Option.none

/-- Embeds `BufferCmd::gl_release` (buffer.rs lines 438-443). -/
def BufferCmd.gl_release {T : Type} (c : BufferCmd T) : Option (BufferCmd T) :=
  if c.kind.is_unspec then
    Option.some { c with kind := BufferCmdKind.GLRelease }
  else
    Option.none

/-- Embeds `BufferCmd::fill` (buffer.rs lines 462-467). -/
def BufferCmd.fill {T : Type} (c : BufferCmd T) (pattern : T)
    (len : Option Nat) : Option (BufferCmd T) :=
  if c.kind.is_unspec then
    Option.some { c with kind := BufferCmdKind.Fill pattern len }
  else
    Option.none

/-- Embeds `BufferCmd::rect` (buffer.rs lines 474-487); `Option.none` models
the panic when a non-zero linear offset was already set. -/
def BufferCmd.rect {T : Type} (c : BufferCmd T)
    (src_origin dst_origin region : Nat × Nat × Nat)
    (src_row_pitch src_slc_pitch dst_row_pitch dst_slc_pitch : Nat) :
    Option (BufferCmd T) :=
  let shape2 : BufferCmdDataShape :=
    BufferCmdDataShape.Rect src_origin dst_origin region
      src_row_pitch src_slc_pitch dst_row_pitch dst_slc_pitch
  match c.shape with
  | BufferCmdDataShape.Lin offset =>
      if offset == 0 then
        Option.some { c with shape := shape2 }
      else
        Option.none
  | BufferCmdDataShape.Rect _ _ _ _ _ _ _ =>
      Option.some { c with shape := shape2 }

/-- Embeds `BufferCmd::ewait` (buffer.rs lines 490-493). -/
def BufferCmd.setEwait {T : Type} (c : BufferCmd T) (ewait : EventListCore) :
    BufferCmd T :=
  { c with ewait := Option.some ewait }

/-- Embeds `BufferCmd::enew` (buffer.rs lines 504-507). -/
def BufferCmd.setEnew {T : Type} (c : BufferCmd T) (enew : EventCore) :
    BufferCmd T :=
  { c with enew := Option.some enew }

/-- The asynchronous command submitted to the `core` runtime by `enq`; each
constructor records the exact arguments of the corresponding `core::enqueue_*`
call (buffer.rs lines 525-623). -/
inductive Command (T : Type) where
  | ReadLin (queue : CommandQueue) (mem : MemCore) (block : Bool) (offset : Nat)
      (data : List T) (ewait : Option EventListCore) (enew : Option EventCore)
  | ReadRect (queue : CommandQueue) (mem : MemCore) (block : Bool)
      (src_origin dst_origin region : Nat × Nat × Nat)
      (src_row_pitch src_slc_pitch dst_row_pitch dst_slc_pitch : Nat)
      (data : List T) (ewait : Option EventListCore) (enew : Option EventCore)
  | WriteLin (queue : CommandQueue) (mem : MemCore) (block : Bool) (offset : Nat)
      (data : List T) (ewait : Option EventListCore) (enew : Option EventCore)
  | WriteRect (queue : CommandQueue) (mem : MemCore) (block : Bool)
      (src_origin dst_origin region : Nat × Nat × Nat)
      (src_row_pitch src_slc_pitch dst_row_pitch dst_slc_pitch : Nat)
      (data : List T) (ewait : Option EventListCore) (enew : Option EventCore)
  | CopyLin (queue : CommandQueue) (src dst : MemCore)
      (src_offset dst_offset len : Nat)
      (ewait : Option EventListCore) (enew : Option EventCore)
  | CopyRect (queue : CommandQueue) (src dst : MemCore)
      (src_origin dst_origin region : Nat × Nat × Nat)
      (src_row_pitch src_slc_pitch dst_row_pitch dst_slc_pitch : Nat)
      (ewait : Option EventListCore) (enew : Option EventCore)
  | FillLin (queue : CommandQueue) (mem : MemCore) (pattern : T)
      (offset len : Nat) (ewait : Option EventListCore) (enew : Option EventCore)
  | GLAcquireCmd (queue : CommandQueue) (mem : MemCore)
      (ewait : Option EventListCore) (enew : Option EventCore)
  | GLReleaseCmd (queue : CommandQueue) (mem : MemCore)
      (ewait : Option EventListCore) (enew : Option EventCore)
  deriving Repr, DecidableEq

/-- Outcome of `enq`: a submitted command, a recoverable error, or a process
abort (the `unimplemented` arm). -/
inductive EnqResult (T : Type) where
  | ok (cmd : Command T)
  | err (msg : String)
  | panicked
  deriving Repr, DecidableEq

/-- Embeds `BufferCmd::enq` (buffer.rs lines 525-623), arm for arm; the
catch-all arm of the Rust match (reached exactly by `CopyToImage`) is the
`unimplemented` panic, modelled as `EnqResult.panicked`. -/
def BufferCmd.enq {T : Type} (c : BufferCmd T) : EnqResult T :=
  match c.kind with
  | BufferCmdKind.Read data =>
      match c.shape with
      | BufferCmdDataShape.Lin offset =>
          match check_len c.mem_len data.length offset with
          | Except.error e => EnqResult.err e
          | Except.ok _ => EnqResult.ok (Command.ReadLin c.queue c.obj_core
              c.block offset data c.ewait c.enew)
      | BufferCmdDataShape.Rect so dd r p1 p2 p3 p4 =>
          EnqResult.ok (Command.ReadRect c.queue c.obj_core c.block
            so dd r p1 p2 p3 p4 data c.ewait c.enew)
  | BufferCmdKind.Write data =>
      match c.shape with
      | BufferCmdDataShape.Lin offset =>
          match check_len c.mem_len data.length offset with
          | Except.error e => EnqResult.err e
          | Except.ok _ => EnqResult.ok (Command.WriteLin c.queue c.obj_core
              c.block offset data c.ewait c.enew)
      | BufferCmdDataShape.Rect so dd r p1 p2 p3 p4 =>
          EnqResult.ok (Command.WriteRect c.queue c.obj_core c.block
            so dd r p1 p2 p3 p4 data c.ewait c.enew)
  | BufferCmdKind.Copy dst_buffer dst_offset len =>
      match c.shape with
      | BufferCmdDataShape.Lin offset =>
          let len := len.getD c.mem_len
          match check_len c.mem_len len offset with
          | Except.error e => EnqResult.err e
          | Except.ok _ =>
              let dst_offset := dst_offset.getD 0
              EnqResult.ok (Command.CopyLin c.queue c.obj_core dst_buffer
                offset dst_offset len c.ewait c.enew)
      | BufferCmdDataShape.Rect so dd r p1 p2 p3 p4 =>
          if dst_offset.isSome || len.isSome then
            EnqResult.err "ocl::BufferCmd::enq(): For rect shaped copies, destination offset and length must be None."
          else
            EnqResult.ok (Command.CopyRect c.queue c.obj_core dst_buffer
              so dd r p1 p2 p3 p4 c.ewait c.enew)
  | BufferCmdKind.Fill pattern len =>
      match c.shape with
      | BufferCmdDataShape.Lin offset =>
          let len := match len with
            | Option.some l => l
            | Option.none => c.mem_len
          match check_len c.mem_len len offset with
          | Except.error e => EnqResult.err e
          | Except.ok _ => EnqResult.ok (Command.FillLin c.queue c.obj_core
              pattern offset len c.ewait c.enew)
      | BufferCmdDataShape.Rect _ _ _ _ _ _ _ =>
          EnqResult.err "ocl::BufferCmd::enq(): Rectangular fill is not a valid operation. Please use the default shape, linear."
  | BufferCmdKind.GLAcquire =>
      EnqResult.ok (Command.GLAcquireCmd c.queue c.obj_core c.ewait c.enew)
  | BufferCmdKind.GLRelease =>
      EnqResult.ok (Command.GLReleaseCmd c.queue c.obj_core c.ewait c.enew)
  | BufferCmdKind.Unspecified =>
      EnqResult.err "ocl::BufferCmd::enq(): No operation specified. Use .read(...), .write(...), etc. before calling .enq()."
  | BufferCmdKind.Map _ _ =>
      EnqResult.err "ocl::BufferCmd::enq(): For map operations use ::enq_map() instead."
  | BufferCmdKind.CopyToImage _ _ _ => EnqResult.panicked

/-- The map command submitted to the runtime by `enq_map`: the exact arguments
of the `core::enqueue_map_buffer` call (buffer.rs lines 642-644). -/
structure MapCommand where
  queue : CommandQueue
  mem : MemCore
  block : Bool
  flags : MapFlags
  offset : Nat
  len : Nat
  ewait : Option EventListCore
  enew : Option EventCore
  deriving Repr, DecidableEq

/-- Modelled from the spec: `core::enqueue_map_buffer` (not under `src/`)
submits the map command and returns the runtime-owned host-visible view of
`len` elements; device-side failures are outside the model (it succeeds). The
submitted command is returned alongside the view so that it can be observed. -/
def enqueue_map_buffer (T : Type) (queue : CommandQueue) (mem : MemCore)
    (block : Bool) (flags : MapFlags) (offset len : Nat)
    (ewait : Option EventListCore) (enew : Option EventCore) :
    Except String (MapCommand × MappedMemCore T) :=
  let cmd : MapCommand :=
    { queue := queue, mem := mem, block := block, flags := flags,
      offset := offset, len := len, ewait := ewait, enew := enew }
  let view : MappedMemCore T := { ptr := 0, len := len, is_unmapped := false }
  Except.ok (cmd, view)

/-- Embeds `BufferCmd::enq_map` (buffer.rs lines 629-656): requires the `Map`
kind; rejects the rectangular shape; defaults `len` to the whole buffer length
and `flags` to empty; bound-checks with `check_len`; wraps the mapped view in
`MappedMem::new`. -/
def BufferCmd.enq_map {T : Type} (c : BufferCmd T) :
    Except String (MapCommand × MappedMem T) :=
  match c.kind with
  | BufferCmdKind.Map flags len =>
      match c.shape with
      | BufferCmdDataShape.Lin offset =>
          let len := match len with
            | Option.some l => l
            | Option.none => c.mem_len
          match check_len c.mem_len len offset with
          | Except.error e => Except.error e
          | Except.ok _ =>
              let flags := flags.getD MapFlags.empty
              match enqueue_map_buffer T c.queue c.obj_core c.block flags
                  offset len c.ewait c.enew with
              | Except.error e => Except.error e
              | Except.ok (cmd, core) => Except.ok (cmd, MappedMem.new core)
      | BufferCmdDataShape.Rect _ _ _ _ _ _ _ =>
          Except.error "ocl::BufferCmd::enq_map(): A rectangular map is not a valid operation. Please use the default shape, linear."
  | BufferCmdKind.Unspecified =>
      Except.error "ocl::BufferCmd::enq_map(): No operation specified. Use ::map, before calling ::enq_map."
  | _ =>
      Except.error "ocl::BufferCmd::enq_map(): For non-map operations use ::enq instead."

/-- One invocation of an operation-kind selector, carrying its arguments: the
nine kind-setting builder methods of `BufferCmd`. -/
inductive SelectorCall (T : Type) where
  | read (dst_data : List T)
  | read_async (dst_data : List T)
  | write (src_data : List T)
  | map (flags : Option MapFlags) (len : Option Nat)
  | copy (dst_buffer : MemCore) (dst_offset : Option Nat) (len : Option Nat)
  | copy_to_image (image : MemCore) (dst_origin : Nat × Nat × Nat)
      (region : Nat × Nat × Nat)
  | gl_acquire
  | gl_release
  | fill (pattern : T) (len : Option Nat)
  deriving Repr, DecidableEq

/-- Dispatches a selector invocation to the corresponding `BufferCmd` method;
`Option.none` is the panic of the kind-already-set assert. -/
def SelectorCall.apply {T : Type} : SelectorCall T → BufferCmd T → Option (BufferCmd T)
  | SelectorCall.read d, c => c.read d
  | SelectorCall.read_async d, c => c.read_async d
  | SelectorCall.write d, c => c.write d
  | SelectorCall.map fl l, c => c.map fl l
  | SelectorCall.copy dst o l, c => c.copy dst o l
  | SelectorCall.copy_to_image im o r, c => c.copy_to_image im o r
  | SelectorCall.gl_acquire, c => c.gl_acquire
  | SelectorCall.gl_release, c => c.gl_release
  | SelectorCall.fill p l, c => c.fill p l

/-- Modelled from the spec: the dimension helper (`standard::SpatialDims`, not
under `src/`) converts a 1-, 2-, or 3-D shape into a flat element count. -/
inductive SpatialDims where
  | One (a : Nat)
  | Two (a b : Nat)
  | Three (a b c : Nat)
  deriving Repr, DecidableEq

/-- Modelled from the spec: flat element count of a shape (product of its
dimensions). -/
def SpatialDims.to_len : SpatialDims → Nat
  | SpatialDims.One a => a
  | SpatialDims.Two a b => a * b
  | SpatialDims.Three a b c => a * b * c

/-- `flags::MEM_READ_WRITE`, the default memory flags (`CL_MEM_READ_WRITE`). -/
def MEM_READ_WRITE : Nat := 1

/-- Embeds the `Buffer` struct (buffer.rs lines 666-673). -/
structure Buffer (T : Type) where
  obj_core : MemCore
  queue : CommandQueue
  dims : SpatialDims
  len : Nat
  flags : Nat
  deriving Repr, DecidableEq

/-- Embeds `Buffer::len` (buffer.rs lines 796-800). -/
def Buffer.length {T : Type} (b : Buffer T) : Nat := b.len

/-- Embeds `Buffer::default_queue` (buffer.rs lines 838-840). -/
def Buffer.default_queue {T : Type} (b : Buffer T) : CommandQueue := b.queue

/-- Embeds `Buffer::cmd` (buffer.rs lines 766-768). -/
def Buffer.cmd {T : Type} (b : Buffer T) : BufferCmd T :=
  BufferCmd.new b.queue b.obj_core b.len

/-- Modelled from the spec: `core::create_sub_buffer` (not under `src/`)
creates the aliasing device memory handle for the given region; the runtime
checks the device's minimum sub-allocation alignment and may fail with a
misalignment error, abstracted here as the boolean oracle `runtimeOk`. -/
def create_sub_buffer (runtimeOk : Bool) (origin_len size_len : Nat) :
    Except String MemCore :=
  if runtimeOk then
    Except.ok (origin_len + size_len)
  else
    Except.error "CL_MISALIGNED_SUB_BUFFER_OFFSET"

/-- Embeds the `SubBuffer` struct (buffer.rs lines 967-975). -/
structure SubBuffer (T : Type) where
  obj_core : MemCore
  queue : CommandQueue
  origin : SpatialDims
  size : SpatialDims
  len : Nat
  flags : Nat
  deriving Repr, DecidableEq

/-- Embeds `SubBuffer::new` (buffer.rs lines 995-1029): rejects an origin past
the source buffer, rejects a region exceeding the source buffer, then creates
the aliasing handle (which may fail at the runtime) and returns a sub-buffer
whose `len` is the flat size of the region. -/
def SubBuffer.new {T : Type} (runtimeOk : Bool) (buffer : Buffer T)
    (flags_opt : Option Nat) (origin size : SpatialDims) :
    Except String (SubBuffer T) :=
  let flags := flags_opt.getD MEM_READ_WRITE
  let buffer_len := buffer.dims.to_len
  let origin_len := origin.to_len
  let size_len := size.to_len
  if origin_len > buffer_len then
    Except.error "SubBuffer::new: Origin is outside of the dimensions of the source buffer."
  else if origin_len + size_len > buffer_len then
    Except.error "SubBuffer::new: Sub-buffer region exceeds the dimensions of the source buffer."
  else
    match create_sub_buffer runtimeOk origin.to_len size.to_len with
    | Except.error e => Except.error e
    | Except.ok obj =>
        Except.ok {
          obj_core := obj,
          queue := buffer.default_queue,
          origin := origin,
          size := size,
          len := size_len,
          flags := flags }

/-- Embeds `SubBuffer::len` (buffer.rs lines 1081-1083). -/
def SubBuffer.length {T : Type} (sb : SubBuffer T) : Nat := sb.len

/-! ## Claim theorems -/

/-- C1: for every (mem_len, data_len, offset), `check_len` returns success if
and only if offset < mem_len and data_len ≤ mem_len - offset; in particular
mem_len 10, data_len 5, offset 5 succeeds, offset 10 fails, and data_len 6
with offset 5 fails. -/
theorem C1_check_len_iff :
    (∀ mem_len data_len offset : Nat,
      check_len mem_len data_len offset = Except.ok () ↔
        (offset < mem_len ∧ data_len ≤ mem_len - offset)) ∧
    check_len 10 5 5 = Except.ok () ∧
    isErr (check_len 10 5 10) = true ∧
    isErr (check_len 10 6 5) = true := by
  refine ⟨?_, rfl, rfl, rfl⟩
  intro mem_len data_len offset
  simp only [check_len]
  split_ifs with h1 h2
  · simp only [reduceCtorEq, false_iff, not_and, not_le]
    omega
  · simp only [reduceCtorEq, false_iff, not_and, not_le]
    omega
  · simp only [true_iff]
    omega

/-- C6: calling `enq` with the operation kind still unset returns a
recoverable error (no panic, no command submitted), and calling `enq` on a
`Map`-kind builder returns a recoverable error directing the caller to
`enq_map`. -/
theorem C6_enq_unset_or_map {T : Type} (c : BufferCmd T) :
    (c.kind = BufferCmdKind.Unspecified →
      c.enq = EnqResult.err "ocl::BufferCmd::enq(): No operation specified. Use .read(...), .write(...), etc. before calling .enq().") ∧
    (∀ flags len, c.kind = BufferCmdKind.Map flags len →
      c.enq = EnqResult.err "ocl::BufferCmd::enq(): For map operations use ::enq_map() instead.") := by
  obtain ⟨q, oc, bl, lb, k, sh, ew, en, ml⟩ := c
  refine ⟨?_, ?_⟩
  · intro hk
    dsimp only at hk
    subst hk
    rfl
  · intro flags len hk
    dsimp only at hk
    subst hk
    rfl

/-- Concrete fresh builder used as the C6 witness input. -/
def c6Builder : BufferCmd Nat := BufferCmd.new 0 1 10

/-- Witness for C6 at a concrete fresh builder (kind unset) and at the same
builder with a `Map` kind. -/
theorem C6_witness :
    c6Builder.enq = EnqResult.err "ocl::BufferCmd::enq(): No operation specified. Use .read(...), .write(...), etc. before calling .enq()." ∧
    ({ c6Builder with kind := BufferCmdKind.Map Option.none Option.none } : BufferCmd Nat).enq
      = EnqResult.err "ocl::BufferCmd::enq(): For map operations use ::enq_map() instead." :=
  ⟨(C6_enq_unset_or_map c6Builder).1 rfl,
   (C6_enq_unset_or_map { c6Builder with kind := BufferCmdKind.Map Option.none Option.none }).2
     Option.none Option.none rfl⟩

/-- C10: `enq` on a builder whose kind is `CopyToImage` neither submits a
command nor returns a recoverable error: the dispatch has no arm for that kind
and falls into the `unimplemented` panic. -/
theorem C10_copy_to_image_enq_panics {T : Type} (c : BufferCmd T)
    (image : MemCore) (dst_origin region : Nat × Nat × Nat)
    (hk : c.kind = BufferCmdKind.CopyToImage image dst_origin region) :
    c.enq = EnqResult.panicked := by
  obtain ⟨q, oc, bl, lb, k, sh, ew, en, ml⟩ := c
  dsimp only at hk
  subst hk
  cases sh <;> rfl

/-- Concrete `CopyToImage`-kind builder used as the C10 witness input. -/
def c10Builder : BufferCmd Nat :=
  { (BufferCmd.new 0 1 10 : BufferCmd Nat) with
    kind := BufferCmdKind.CopyToImage 2 (0, 0, 0) (1, 1, 1) }

/-- Witness for C10 at a concrete `CopyToImage`-kind builder. -/
theorem C10_witness : c10Builder.enq = EnqResult.panicked :=
  C10_copy_to_image_enq_panics c10Builder 2 (0, 0, 0) (1, 1, 1) rfl

/-- C3: on a `Copy`-kind builder with rectangular shape, `enq` returns a
descriptive error and submits no command whenever `dst_offset` or `len` is not
`None`; when both are `None` it submits the rectangular copy with the full
region and pitch tuple. -/
theorem C3_copy_rect_enq {T : Type} (c : BufferCmd T) (dst : MemCore)
    (dOff l : Option Nat) (so dd r : Nat × Nat × Nat) (p1 p2 p3 p4 : Nat)
    (hk : c.kind = BufferCmdKind.Copy dst dOff l)
    (hs : c.shape = BufferCmdDataShape.Rect so dd r p1 p2 p3 p4) :
    ((dOff.isSome = true ∨ l.isSome = true) →
      c.enq = EnqResult.err "ocl::BufferCmd::enq(): For rect shaped copies, destination offset and length must be None.") ∧
    (dOff = Option.none → l = Option.none →
      c.enq = EnqResult.ok (Command.CopyRect c.queue c.obj_core dst
        so dd r p1 p2 p3 p4 c.ewait c.enew)) := by
  obtain ⟨q, oc, bl, lb, k, sh, ew, en, ml⟩ := c
  dsimp only at hk hs ⊢
  subst hk
  subst hs
  refine ⟨?_, ?_⟩
  · intro h
    have hor : (dOff.isSome || l.isSome) = true := by
      rcases h with h | h <;> simp [h]
    simp [BufferCmd.enq, hor]
  · intro h1 h2
    subst h1
    subst h2
    rfl

/-- Concrete rectangular `Copy`-kind builder with both optional fields unset,
used by the C3 witness. -/
def c3Builder : BufferCmd Nat :=
  { (BufferCmd.new 0 1 10 : BufferCmd Nat) with
    kind := BufferCmdKind.Copy 2 Option.none Option.none,
    shape := BufferCmdDataShape.Rect (0, 0, 0) (0, 0, 0) (2, 2, 1) 8 16 8 16 }

/-- Witness for C3: a rectangular copy with a set destination offset errors;
with both fields unset the rectangular copy command is submitted. -/
theorem C3_witness :
    ({ c3Builder with kind := BufferCmdKind.Copy 2 (Option.some 4) Option.none } : BufferCmd Nat).enq
      = EnqResult.err "ocl::BufferCmd::enq(): For rect shaped copies, destination offset and length must be None." ∧
    c3Builder.enq = EnqResult.ok (Command.CopyRect 0 1 2
      (0, 0, 0) (0, 0, 0) (2, 2, 1) 8 16 8 16 Option.none Option.none) :=
  ⟨(C3_copy_rect_enq { c3Builder with kind := BufferCmdKind.Copy 2 (Option.some 4) Option.none }
      2 (Option.some 4) Option.none (0, 0, 0) (0, 0, 0) (2, 2, 1) 8 16 8 16 rfl rfl).1
      (Or.inl rfl),
   (C3_copy_rect_enq c3Builder 2 Option.none Option.none
      (0, 0, 0) (0, 0, 0) (2, 2, 1) 8 16 8 16 rfl rfl).2 rfl rfl⟩

/-- C8: on a `Fill`-kind builder, `enq` errors and submits nothing when the
shape is rectangular; with linear shape an unset `len` defaults to the whole
buffer length and (mem_len, len, offset) is validated with `check_len` before
the fill command is submitted. -/
theorem C8_fill_enq {T : Type} (c : BufferCmd T) (pattern : T) (l : Option Nat)
    (hk : c.kind = BufferCmdKind.Fill pattern l) :
    (∀ so dd r p1 p2 p3 p4, c.shape = BufferCmdDataShape.Rect so dd r p1 p2 p3 p4 →
      c.enq = EnqResult.err "ocl::BufferCmd::enq(): Rectangular fill is not a valid operation. Please use the default shape, linear.") ∧
    (∀ offset, c.shape = BufferCmdDataShape.Lin offset →
      c.enq = match check_len c.mem_len (l.getD c.mem_len) offset with
        | Except.error e => EnqResult.err e
        | Except.ok _ => EnqResult.ok (Command.FillLin c.queue c.obj_core pattern
            offset (l.getD c.mem_len) c.ewait c.enew)) := by
  obtain ⟨q, oc, bl, lb, k, sh, ew, en, ml⟩ := c
  dsimp only at hk ⊢
  subst hk
  refine ⟨?_, ?_⟩
  · intro so dd r p1 p2 p3 p4 hs
    subst hs
    rfl
  · intro offset hs
    subst hs
    cases l <;> rfl

/-- Concrete linear `Fill`-kind builder with unset length, used by the C8
witness: the length defaults to the whole buffer length 10 and passes the
bound check at offset 0. -/
def c8Builder : BufferCmd Nat :=
  { (BufferCmd.new 0 1 10 : BufferCmd Nat) with
    kind := BufferCmdKind.Fill 7 Option.none }

/-- Witness for C8: a rectangular fill errors; the linear fill with unset
length submits a fill of the whole buffer. -/
theorem C8_witness :
    ({ c8Builder with shape := BufferCmdDataShape.Rect (0, 0, 0) (0, 0, 0) (2, 2, 1) 8 16 8 16 } : BufferCmd Nat).enq
      = EnqResult.err "ocl::BufferCmd::enq(): Rectangular fill is not a valid operation. Please use the default shape, linear." ∧
    c8Builder.enq = EnqResult.ok (Command.FillLin 0 1 7 0 10 Option.none Option.none) :=
  ⟨(C8_fill_enq { c8Builder with shape := BufferCmdDataShape.Rect (0, 0, 0) (0, 0, 0) (2, 2, 1) 8 16 8 16 }
      7 Option.none rfl).1 (0, 0, 0) (0, 0, 0) (2, 2, 1) 8 16 8 16 rfl,
   (C8_fill_enq c8Builder 7 Option.none rfl).2 0 rfl⟩

/-- A selector applied to a builder whose kind is already set panics. -/
theorem SelectorCall.apply_not_unspec {T : Type} (s : SelectorCall T)
    (c : BufferCmd T) (h : c.kind.is_unspec = false) :
    s.apply c = Option.none := by
  cases s <;>
    simp [SelectorCall.apply, BufferCmd.read, BufferCmd.read_async,
      BufferCmd.write, BufferCmd.map, BufferCmd.copy, BufferCmd.copy_to_image,
      BufferCmd.gl_acquire, BufferCmd.gl_release, BufferCmd.fill, h]

/-- A selector application that succeeds leaves the kind set (not unset). -/
theorem SelectorCall.apply_kind_not_unspec {T : Type} (s : SelectorCall T)
    (c c1 : BufferCmd T) (h : s.apply c = Option.some c1) :
    c1.kind.is_unspec = false := by
  by_cases hu : c.kind.is_unspec = true
  · cases s <;>
      simp only [SelectorCall.apply, BufferCmd.read, BufferCmd.read_async,
        BufferCmd.write, BufferCmd.map, BufferCmd.copy, BufferCmd.copy_to_image,
        BufferCmd.gl_acquire, BufferCmd.gl_release, BufferCmd.fill, hu, if_true,
        Option.some.injEq] at h <;>
      subst h <;> rfl
  · rw [SelectorCall.apply_not_unspec s c (by simpa using hu)] at h
    exact Option.noConfusion h

/-- C5: once one of the nine operation-kind selectors has succeeded on a
builder, a second call to any of the nine selectors (same or different, all
81 ordered pairs) panics via the kind-already-set assert. -/
theorem C5_kind_set_twice_panics {T : Type} (s1 s2 : SelectorCall T)
    (c c1 : BufferCmd T) (h : s1.apply c = Option.some c1) :
    s2.apply c1 = Option.none :=
  SelectorCall.apply_not_unspec s2 c1 (SelectorCall.apply_kind_not_unspec s1 c c1 h)

/-- Concrete fresh builder used by the C5 witness. -/
def c5Builder : BufferCmd Nat := BufferCmd.new 0 1 10

/-- The C5 witness builder after its first selector call. -/
def c5Acquired : BufferCmd Nat :=
  { (BufferCmd.new 0 1 10 : BufferCmd Nat) with kind := BufferCmdKind.GLAcquire }

/-- Witness for C5: on a fresh builder `gl_acquire` succeeds, and a following
`gl_release` call panics. -/
theorem C5_witness :
    SelectorCall.apply (SelectorCall.gl_acquire : SelectorCall Nat) c5Builder
      = Option.some c5Acquired ∧
    SelectorCall.apply (SelectorCall.gl_release : SelectorCall Nat) c5Acquired
      = Option.none :=
  ⟨rfl, C5_kind_set_twice_panics SelectorCall.gl_acquire SelectorCall.gl_release
    c5Builder c5Acquired rfl⟩

/-- C4: `SubBuffer::new` returns an error when `origin.to_len` alone, or
`origin.to_len + size.to_len`, exceeds the buffer length, and otherwise
(with the runtime alignment check passing) succeeds with a sub-buffer whose
length equals `size.to_len`. The hypothesis is the `Buffer` invariant
`length == dims.to_len()`. -/
theorem C4_sub_buffer_new {T : Type} (rOk : Bool) (b : Buffer T)
    (fl : Option Nat) (origin size : SpatialDims)
    (hinv : b.len = b.dims.to_len) :
    (origin.to_len > b.length →
      isErr (SubBuffer.new rOk b fl origin size) = true) ∧
    (origin.to_len + size.to_len > b.length →
      isErr (SubBuffer.new rOk b fl origin size) = true) ∧
    (origin.to_len + size.to_len ≤ b.length →
      ∃ sb : SubBuffer T, SubBuffer.new true b fl origin size = Except.ok sb ∧
        sb.length = size.to_len) := by
  refine ⟨?_, ?_, ?_⟩ <;> intro h <;> simp only [Buffer.length] at h
  · have h1 : origin.to_len > b.dims.to_len := by omega
    simp [SubBuffer.new, h1, isErr]
  · by_cases h1 : origin.to_len > b.dims.to_len
    · simp [SubBuffer.new, h1, isErr]
    · have h2 : origin.to_len + size.to_len > b.dims.to_len := by omega
      simp [SubBuffer.new, h1, h2, isErr]
  · have h1 : ¬ origin.to_len > b.dims.to_len := by omega
    have h2 : ¬ origin.to_len + size.to_len > b.dims.to_len := by omega
    refine ⟨{ obj_core := origin.to_len + size.to_len, queue := b.default_queue,
              origin := origin, size := size, len := size.to_len,
              flags := fl.getD MEM_READ_WRITE }, ?_, rfl⟩
    simp [SubBuffer.new, h1, h2, create_sub_buffer]

/-- Concrete buffer of length 100 used by the C4 witness. -/
def c4Buffer : Buffer Nat :=
  { obj_core := 5, queue := 0, dims := SpatialDims.One 100, len := 100, flags := 1 }

/-- Witness for C4: on a buffer of length 100, origin 90 with size 20 fails
and origin 90 with size 10 succeeds with length 10. -/
theorem C4_witness :
    isErr (SubBuffer.new true c4Buffer Option.none
      (SpatialDims.One 90) (SpatialDims.One 20)) = true ∧
    (∃ sb : SubBuffer Nat, SubBuffer.new true c4Buffer Option.none
        (SpatialDims.One 90) (SpatialDims.One 10) = Except.ok sb ∧
      sb.length = (SpatialDims.One 10).to_len) :=
  ⟨(C4_sub_buffer_new true c4Buffer Option.none (SpatialDims.One 90)
      (SpatialDims.One 20) rfl).2.1 (by decide),
   (C4_sub_buffer_new true c4Buffer Option.none (SpatialDims.One 90)
      (SpatialDims.One 10) rfl).2.2 (by decide)⟩

/-- C7: `enq_map` succeeds only on a `Map`-kind builder (unset or other kinds
give a recoverable error); the rectangular shape is rejected; on the linear
shape an unset `len` defaults to the whole buffer length, `check_len` is
applied to (mem_len, len, offset), and on success the submitted map command's
result is wrapped in a `MappedMem`. -/
theorem C7_enq_map_spec {T : Type} (c : BufferCmd T) :
    (c.kind.isMap = false → isErr c.enq_map = true) ∧
    (∀ flags l so dd r p1 p2 p3 p4,
      c.kind = BufferCmdKind.Map flags l →
      c.shape = BufferCmdDataShape.Rect so dd r p1 p2 p3 p4 →
      isErr c.enq_map = true) ∧
    (∀ flags l offset,
      c.kind = BufferCmdKind.Map flags l →
      c.shape = BufferCmdDataShape.Lin offset →
      c.enq_map = match check_len c.mem_len (l.getD c.mem_len) offset with
        | Except.error e => Except.error e
        | Except.ok _ => Except.ok
            ({ queue := c.queue, mem := c.obj_core, block := c.block,
               flags := flags.getD MapFlags.empty, offset := offset,
               len := l.getD c.mem_len, ewait := c.ewait, enew := c.enew },
             MappedMem.new { ptr := 0, len := l.getD c.mem_len, is_unmapped := false })) := by
  obtain ⟨q, oc, bl, lb, k, sh, ew, en, ml⟩ := c
  refine ⟨?_, ?_, ?_⟩
  · intro hm
    dsimp only at hm ⊢
    cases k <;> simp [BufferCmdKind.isMap] at hm <;> rfl
  · intro flags l so dd r p1 p2 p3 p4 hk hs
    dsimp only at hk hs
    subst hk
    subst hs
    rfl
  · intro flags l offset hk hs
    dsimp only at hk hs ⊢
    subst hk
    subst hs
    cases l <;>
      cases hc : check_len ml (Option.getD (Option.none : Option Nat) ml) offset <;>
      simp_all [BufferCmd.enq_map, enqueue_map_buffer, MappedMem.new, Option.getD]

/-- Concrete linear `Map`-kind builder with unset length and offset 0, used by
the C7 witness. -/
def c7Builder : BufferCmd Nat :=
  { (BufferCmd.new 0 1 10 : BufferCmd Nat) with
    kind := BufferCmdKind.Map Option.none Option.none }

/-- Witness for C7: a non-map builder errors on `enq_map`; the concrete linear
map builder submits a whole-buffer map (length defaulted to 10, offset 0) and
wraps it in a fresh `MappedMem`. -/
theorem C7_witness :
    isErr ({ c7Builder with kind := BufferCmdKind.GLAcquire } : BufferCmd Nat).enq_map = true ∧
    c7Builder.enq_map = Except.ok
      ({ queue := 0, mem := 1, block := true, flags := 0, offset := 0, len := 10,
         ewait := Option.none, enew := Option.none },
       MappedMem.new { ptr := 0, len := 10, is_unmapped := false }) :=
  ⟨(C7_enq_map_spec { c7Builder with kind := BufferCmdKind.GLAcquire }).1 rfl,
   (C7_enq_map_spec c7Builder).2.2 Option.none Option.none 0 rfl rfl⟩

/-- C9: on a `MappedMem` whose deferred-unmap policy is installed (and which
is not yet unmapped), `set_unmap_events` overwrites exactly the captured
wait-list and new-event fields (an absent argument keeps the old value) and
leaves the captured queue and memory handle, and everything else, unchanged;
on a `MappedMem` without a prior `unmap_later` the call panics. -/
theorem C9_set_unmap_events_spec {T : Type} (m : MappedMem T)
    (queue : CommandQueue) (mem : MemCore) (ew : Option EventListCore)
    (en : Option EventCore) (wl : Option EventListCore) (nev : Option EventCore)
    (hd : m.delayed_unmap = DelayedUnmap.some queue mem ew en)
    (hu : m.core.is_unmapped = false) :
    m.set_unmap_events wl nev = Option.some
      { m with delayed_unmap := DelayedUnmap.some queue mem (mergeOpt wl ew) (mergeOpt nev en) } ∧
    (∀ m2 : MappedMem T, m2.delayed_unmap = DelayedUnmap.none →
      m2.set_unmap_events wl nev = Option.none) := by
  refine ⟨?_, ?_⟩
  · simp [MappedMem.set_unmap_events, hd, hu]
  · intro m2 hd2
    by_cases hu2 : m2.core.is_unmapped <;>
      simp [MappedMem.set_unmap_events, hd2, hu2]

/-- Concrete mapped-memory resource with an installed deferred-unmap policy,
used by the C9 witness. -/
def c9Mapped : MappedMem Nat :=
  { core := { ptr := 0, len := 4, is_unmapped := false },
    delayed_unmap := DelayedUnmap.some 3 7 (Option.some [11]) Option.none }

/-- Witness for C9: updating only the wait-list leaves queue 3 and handle 7
captured and keeps the absent new-event field; a policy-free resource panics. -/
theorem C9_witness :
    c9Mapped.set_unmap_events (Option.some [12]) Option.none = Option.some
      { c9Mapped with delayed_unmap := DelayedUnmap.some 3 7 (mergeOpt (Option.some [12]) (Option.some [11])) (mergeOpt Option.none Option.none) } ∧
    (∀ m2 : MappedMem Nat, m2.delayed_unmap = DelayedUnmap.none →
      m2.set_unmap_events (Option.some [12]) Option.none = Option.none) :=
  C9_set_unmap_events_spec c9Mapped 3 7 (Option.some [11]) Option.none
    (Option.some [12]) Option.none rfl rfl

/-- Concrete mapped-memory resource with no deferred-unmap policy configured
and not yet unmapped: the input on which the C2 claim fails. -/
def c2Mapped : MappedMem Nat :=
  { core := { ptr := 0, len := 4, is_unmapped := false },
    delayed_unmap := DelayedUnmap.none }

/-- C2 counterexample: a `MappedMem` with no deferred-release configured and
not yet unmapped is NOT released on scope exit — the `Drop` impl's
`DelayedUnmap::None` arm does nothing, so no unmap command is submitted and
the view stays mapped, contrary to the claim that scope exit releases it. -/
theorem C2_counterexample :
    c2Mapped.delayed_unmap = DelayedUnmap.none ∧
    c2Mapped.core.is_unmapped = false ∧
    c2Mapped.drop.submitted = false ∧
    c2Mapped.drop.state.core.is_unmapped = false :=
  ⟨rfl, rfl, rfl, rfl⟩

/-- C2 (amended): scope exit of a `MappedMem` with no deferred-release
configured submits no release and raises no error — the drop is a no-op that
leaves the state unchanged; and for every `MappedMem`, a second explicit call
to `unmap` returns an error. -/
theorem C2_amended_drop_noop_double_unmap_errs {T : Type} (m : MappedMem T) :
    (m.delayed_unmap = DelayedUnmap.none →
      m.drop = { submitted := false, state := m }) ∧
    isErr m.unmapTwice = true := by
  refine ⟨?_, ?_⟩
  · intro hd
    by_cases hu : m.core.is_unmapped <;> simp [MappedMem.drop, hd, hu]
  · by_cases hu : m.core.is_unmapped
    · simp [MappedMem.unmapTwice, MappedMem.unmap, hu, isErr]
    · cases hd : m.delayed_unmap with
      | some qu me ew en =>
          simp [MappedMem.unmapTwice, MappedMem.unmap, hd, hu,
            MappedMemCore.unmap_mem_object, isErr]
      | none =>
          simp [MappedMem.unmapTwice, MappedMem.unmap, hd, hu, isErr]

/-- Witness for C2 (amended) at the concrete policy-free resource. -/
theorem C2_witness :
    c2Mapped.drop = { submitted := false, state := c2Mapped } ∧
    isErr c2Mapped.unmapTwice = true :=
  ⟨(C2_amended_drop_noop_double_unmap_errs c2Mapped).1 rfl,
   (C2_amended_drop_noop_double_unmap_errs c2Mapped).2⟩

end Ocl
